import Mathlib

/-!
# Verification of the Remix server-runtime cookie codec

Shallow embedding of `packages/remix-server-runtime/cookies.ts`:

* `encodeCookieValue` / `decodeCookieValue` — the token codec built on the
  external `jose` JWT library (sign / encrypt / unsecured modes, ordered
  secret rotation with first-match-wins and an unsecured fallback);
* `createCookieFactory` — the cookie descriptor (name, secrets, options,
  the derived `expires` getter, `parse` and `serialize`);
* `isCookie` — the runtime type guard.

The `jose` library itself is an external dependency whose code is not part of
this repository; its operations are modelled symbolically from the spec
(section 4.2 and 6): a token is a compact string carrying a header, a payload,
an issued-at claim and (when secured) a tag.  We represent such strings by the
inductive `Token`, keeping each segment abstract.  The external `cookie`
attribute parser/serializer is likewise out of scope and appears only as a
function parameter (`parseHeader`) or as the interface record `SetCookie`
handed to it.  Wall-clock time (`Date.now()`) is an explicit argument.
-/

namespace RemixCookies

/-- JSON-serializable values carried by a cookie, kept abstract: enough
constructors to distinguish the empty-string sentinel from other payloads. -/
inductive JSValue where
  | str (s : String)
  | num (n : Int)
  | boolV (b : Bool)
  deriving DecidableEq, Repr

/-- A compact token string, represented symbolically by what its segments
contain: the payload claims, the issued-at claim, and — for secured tokens —
the secret whose MAC/AEAD tag protects it.  `malformed` stands for any string
that is not valid compact-token framing at all. -/
inductive Token where
  | signed (payload : JSValue) (iat : Nat) (secret : String)
  | encrypted (payload : JSValue) (iat : Nat) (secret : String)
  | unsecured (payload : JSValue) (iat : Nat)
  | malformed (raw : String)
  deriving DecidableEq, Repr

/-- The payload segment a structurally parseable token contains; `none` for a
string with no valid compact-token framing. -/
def Token.payloadOf : Token → Option JSValue
  | .signed payload _ _ => some payload
  | .encrypted payload _ _ => some payload
  | .unsecured payload _ => some payload
  | .malformed _ => none

/-- Decoding fails only when the token string does not match the expected
segmented compact-token framing. -/
inductive DecodingError where
  | invalidFraming (raw : String)
  deriving DecidableEq, Repr

namespace jose

/-- Modelled from the spec: `jose.SignJWT(value).setProtectedHeader(...)
.setIssuedAt().sign(secret)` — missing external library code.  "derive a MAC
key from signingSecret using the same password-based scheme and produce a
signed token (plaintext-visible payload + MAC), with an issued-at timestamp
claim". -/
def SignJWT.sign (value : JSValue) (iat : Nat) (secret : String) : Token :=
  Token.signed value iat secret

/-- Modelled from the spec: `jose.EncryptJWT(value).setProtectedHeader(...)
.setIssuedAt().encrypt(secret)` — missing external library code.  "derive a
content-encryption key from signingSecret ... and produce an
authenticated-encryption token (ciphertext + authentication tag) containing
the payload as encrypted claims, with an issued-at timestamp claim". -/
def EncryptJWT.encrypt (value : JSValue) (iat : Nat) (secret : String) : Token :=
  Token.encrypted value iat secret

/-- Modelled from the spec: `new jose.UnsecuredJWT(value).setIssuedAt()
.encode()` — missing external library code.  "produce an unsecured token —
structurally the same compact format ... but with an explicit none algorithm
marker and no integrity tag". -/
def UnsecuredJWT.encode (value : JSValue) (iat : Nat) : Token :=
  Token.unsecured value iat

/-- Modelled from the spec: `jose.jwtVerify(value, secret)` — missing external
library code.  Verification succeeds exactly on a signed token whose MAC was
produced with this secret, returning its decoded payload; any failure (bad
signature, wrong token kind, malformed token) is an exception, modelled as
`none`. -/
def jwtVerify (value : Token) (secret : String) : Option JSValue :=
  match value with
  | .signed payload _ s => if s = secret then some payload else none
  | _ => none

/-- Modelled from the spec: `jose.jwtDecrypt(value, secret)` — missing
external library code.  Decryption succeeds exactly on an encrypted token
produced with this secret, returning its decrypted payload; any failure is an
exception, modelled as `none`. -/
def jwtDecrypt (value : Token) (secret : String) : Option JSValue :=
  match value with
  | .encrypted payload _ s => if s = secret then some payload else none
  | _ => none

/-- Modelled from the spec: `jose.UnsecuredJWT.decode(value)` — missing
external library code.  "the unsecured decoder does not check any specific
algorithm marker — it just reads the payload segment"; it fails only when the
token "cannot be parsed into the expected segmented structure at all". -/
def UnsecuredJWT.decode (value : Token) : Except DecodingError JSValue :=
  match value with
  | .malformed raw => Except.error (DecodingError.invalidFraming raw)
  | .signed payload _ _ => Except.ok payload
  | .encrypted payload _ _ => Except.ok payload
  | .unsecured payload _ => Except.ok payload

end jose

/-- Embedding of `encodeCookieValue(value, secrets, encrypt)` (cookies.ts lines 148-172).
`now` is the wall-clock time read by `setIssuedAt()`.  When `secrets` is
non-empty only `secrets[0]` is used, with `encrypt` selecting JWE vs JWS;
otherwise an unsecured token is produced. -/
def encodeCookieValue (value : JSValue) (secrets : List String) (encrypt : Bool)
    (now : Nat) : Token :=
  match secrets with
  | secret0 :: _ =>
    if encrypt then jose.EncryptJWT.encrypt value now secret0
    else jose.SignJWT.sign value now secret0
  | [] => jose.UnsecuredJWT.encode value now

/-- The body of one iteration of the `for (let secret of secrets)` loop in
`decodeCookieValue`: attempt `jwtDecrypt` or `jwtVerify` with this secret,
with the surrounding `try \x7b ... \x7d catch (e) \x7b\x7d` turning any
failure into `none`. -/
def attemptSecret (value : Token) (secret : String) (decrypt : Bool) : Option JSValue :=
  if decrypt then jose.jwtDecrypt value secret else jose.jwtVerify value secret

/-- The `for (let secret of secrets)` loop of `decodeCookieValue` (lines
180-198): try each secret in list order, returning the first decoded payload;
`none` when every attempt failed. -/
def tryEachSecret (value : Token) (secrets : List String) (decrypt : Bool) :
    Option JSValue :=
  match secrets with
  | [] => none
  | secret :: rest =>
    match attemptSecret value secret decrypt with
    | some unsignedValue => some unsignedValue
    | none => tryEachSecret value rest decrypt

/-- Embedding of `decodeCookieValue(value, secrets, decrypt)` (cookies.ts lines 174-202):
when `secrets` is non-empty, iterate them in order and return the first
payload that verifies/decrypts; if the loop falls through — or `secrets` is
empty — decode the token as an unsecured token. -/
def decodeCookieValue (value : Token) (secrets : List String) (decrypt : Bool) :
    Except DecodingError JSValue :=
  if 0 < secrets.length then
    match tryEachSecret value secrets decrypt with
    | some unsignedValue => Except.ok unsignedValue
    | none => jose.UnsecuredJWT.decode value
  else
    jose.UnsecuredJWT.decode value

/-- The options bag accepted by `createCookie(name, cookieOptions)`, after the
defaults `path: "/"` and `sameSite: "lax"` have been merged in (cookies.ts
lines 84-92).  `Date` values are modelled as milliseconds since the epoch. -/
structure CookieOptions where
  secrets : List String := []
  encrypt : Bool := false
  path : String := "/"
  sameSite : String := "lax"
  maxAge : Option Int := none
  expires : Option Int := none
  deriving DecidableEq, Repr

/-- The rest-options captured by the descriptor after `secrets` and `encrypt`
have been destructured out (`let \x7b secrets = [], encrypt = false,
...options \x7d = ...`). -/
structure ResidualOptions where
  path : String
  sameSite : String
  maxAge : Option Int
  expires : Option Int
  deriving DecidableEq, Repr

/-- The state a constructed cookie object closes over: the construction-time
`name`, the destructured `secrets` and `encrypt`, and the residual options. -/
structure CookieDescriptor where
  name : String
  secrets : List String
  encrypt : Bool
  options : ResidualOptions
  deriving DecidableEq, Repr

/-- The cookie object built by the function `createCookieFactory()` returns
(cookies.ts lines 83-129). -/
def createCookie (name : String) (cookieOptions : CookieOptions) : CookieDescriptor :=
  { name := name
    secrets := cookieOptions.secrets
    encrypt := cookieOptions.encrypt
    options :=
      { path := cookieOptions.path
        sameSite := cookieOptions.sameSite
        maxAge := cookieOptions.maxAge
        expires := cookieOptions.expires } }

/-- Embedding of `createCookieFactory` (cookies.ts lines 81-129): a factory taking no
arguments and returning the `createCookie` function. -/
def createCookieFactory : Unit → String → CookieOptions → CookieDescriptor :=
  fun _ => createCookie

/-- The `get isSigned()` accessor: `secrets.length > 0`. -/
def CookieDescriptor.isSigned (c : CookieDescriptor) : Bool :=
  decide (0 < c.secrets.length)

/-- The `get expires()` accessor (cookies.ts lines 103-108), evaluated at
wall-clock time `now` (milliseconds): `typeof options.maxAge !== "undefined"
? new Date(Date.now() + options.maxAge * 1000) : options.expires`. -/
def CookieDescriptor.expires (c : CookieDescriptor) (now : Int) : Option Int :=
  match c.options.maxAge with
  | some maxAge => some (now + maxAge * 1000)
  | none => c.options.expires

/-- The raw value associated with a cookie name inside a `Cookie` /
`Set-Cookie` header: either the empty string or an encoded token string. -/
inductive RawValue where
  | emptyStr
  | token (t : Token)
  deriving DecidableEq, Repr

/-- The interface record handed to the external `cookie.serialize` collaborator
(out of scope per the spec): the `name` and the raw value computed by the
descriptor; attribute rendering is the external serializer's job. -/
structure SetCookie where
  name : String
  rawValue : RawValue
  deriving DecidableEq, Repr

/-- The value-to-raw-value step of `serialize` (cookies.ts lines 118-127),
parameterized over the token encoder so that its (non-)invocation is
observable: `value === "" ? "" : await encodeCookieValue(value, secrets,
encrypt)`. -/
def serializeWith (encoder : JSValue → Token) (name : String) (value : JSValue) :
    SetCookie :=
  { name := name
    rawValue := if value = JSValue.str "" then RawValue.emptyStr
                else RawValue.token (encoder value) }

/-- The descriptor's `serialize` method, at wall-clock time `now`, up to the
external attribute serializer: the `(name, rawValue)` pair it passes on. -/
def CookieDescriptor.serialize (c : CookieDescriptor) (now : Nat) (value : JSValue) :
    SetCookie :=
  serializeWith (fun v => encodeCookieValue v c.secrets c.encrypt now) c.name value

/-- The lookup-and-decode step of `parse` (cookies.ts lines 111-116),
parameterized over the token decoder so that its (non-)invocation is
observable, over the mapping produced by the external `cookie.parse`:
`name in cookies ? (cookies[name] === "" ? "" : await
decodeCookieValue(cookies[name], secrets, encrypt)) : null`. -/
def parseWith (decoder : Token → Except DecodingError JSValue) (name : String)
    (cookies : List (String × RawValue)) : Except DecodingError (Option JSValue) :=
  match cookies.lookup name with
  | none => Except.ok none
  | some RawValue.emptyStr => Except.ok (some (JSValue.str ""))
  | some (RawValue.token t) => (decoder t).map some

/-- The descriptor's `parse` method (cookies.ts lines 109-117).  `parseHeader`
is the external `cookie.parse` collaborator (already configured with the
merged options), producing the name-to-raw-value mapping.  A `none` header is
the JS `null`/absent header; the JS falsiness test `!cookieHeader` also
catches the empty-string header. -/
def CookieDescriptor.parse (c : CookieDescriptor)
    (parseHeader : String → List (String × RawValue))
    (cookieHeader : Option String) : Except DecodingError (Option JSValue) :=
  match cookieHeader with
  | none => Except.ok none
  | some h =>
    if h = "" then Except.ok none
    else parseWith (fun t => decodeCookieValue t c.secrets c.encrypt) c.name
      (parseHeader h)

/-- A runtime JS property value, as far as the `typeof` checks of `isCookie`
can observe it. -/
inductive JSProp where
  | str (s : String)
  | boolV (b : Bool)
  | func
  | undef
  deriving DecidableEq, Repr

/-- The check `typeof p === "string"`. -/
def JSProp.isStr : JSProp → Bool
  | .str _ => true
  | _ => false

/-- The check `typeof p === "boolean"`. -/
def JSProp.isBool : JSProp → Bool
  | .boolV _ => true
  | _ => false

/-- The check `typeof p === "function"`. -/
def JSProp.isFunc : JSProp → Bool
  | .func => true
  | _ => false

/-- The four properties of an object that `isCookie` inspects; a property the
object lacks reads as `undef`. -/
structure JSObject where
  name : JSProp
  isSigned : JSProp
  parse : JSProp
  serialize : JSProp
  deriving DecidableEq, Repr

/-- Embedding of `isCookie(object)` (cookies.ts lines 138-146): `object != null && typeof
object.name === "string" && typeof object.isSigned === "boolean" && typeof
object.parse === "function" && typeof object.serialize === "function"`.  A
`none` argument is the JS `null`/`undefined`. -/
def isCookie (object : Option JSObject) : Bool :=
  match object with
  | none => false
  | some o => o.name.isStr && o.isSigned.isBool && o.parse.isFunc && o.serialize.isFunc

/-- The runtime shape of the object returned by `createCookie` (cookies.ts
lines 96-128): a string `name` getter, a boolean `isSigned` getter, and the
`parse` and `serialize` methods. -/
def CookieDescriptor.toJSObject (c : CookieDescriptor) : JSObject :=
  { name := JSProp.str c.name
    isSigned := JSProp.boolV c.isSigned
    parse := JSProp.func
    serialize := JSProp.func }

end RemixCookies

namespace RemixCookies

/-! ## Helper lemmas -/

/-- The loop returns `none` exactly when every per-secret attempt fails. -/
theorem tryEachSecret_eq_none_of_all_fail (value : Token) (decrypt : Bool) :
    ∀ secrets : List String, (∀ s ∈ secrets, attemptSecret value s decrypt = none) →
      tryEachSecret value secrets decrypt = none := by
  intro secrets
  induction secrets with
  | nil => intro _; rfl
  | cons secret rest ih =>
    intro h
    have h0 : attemptSecret value secret decrypt = none := h secret (by simp)
    have hrest := ih (fun s hs => h s (List.mem_cons_of_mem _ hs))
    simp [tryEachSecret, h0, hrest]

/-- If `decodeCookieValue` reports an error, the unsecured decoder did. -/
theorem unsecuredDecode_error_of_decode_error (value : Token) (secrets : List String)
    (decrypt : Bool) (e : DecodingError)
    (h : decodeCookieValue value secrets decrypt = Except.error e) :
    jose.UnsecuredJWT.decode value = Except.error e := by
  by_cases hl : 0 < secrets.length
  · rw [decodeCookieValue, if_pos hl] at h
    cases htry : tryEachSecret value secrets decrypt with
    | some v => rw [htry] at h; cases h
    | none => rw [htry] at h; exact h
  · rw [decodeCookieValue, if_neg hl] at h; exact h

end RemixCookies

namespace RemixCookies

/-! ## Claim theorems -/

/-- Claim C1: for every JSON-serializable value `V`, every non-empty secret
list `S` (written `s0 :: rest`) and each mode (`encrypt` false = sign, true =
encrypt), decoding the token produced by `encodeCookieValue V S mode` with
`decodeCookieValue` under the same secrets and mode returns exactly `V`. -/
theorem decodeCookieValue_encodeCookieValue_roundtrip (v : JSValue) (s0 : String)
    (rest : List String) (encrypt : Bool) (now : Nat) :
    decodeCookieValue (encodeCookieValue v (s0 :: rest) encrypt now)
      (s0 :: rest) encrypt = Except.ok v := by
  cases encrypt <;>
    simp [encodeCookieValue, decodeCookieValue, tryEachSecret, attemptSecret,
      jose.jwtVerify, jose.jwtDecrypt, jose.SignJWT.sign, jose.EncryptJWT.encrypt]

/-- Claim C4: for every value `V`, decoding with the empty secret list the
token produced by encoding `V` with the empty secret list (sign mode) returns
exactly `V` — the unsecured round-trip. -/
theorem decodeCookieValue_unsecured_roundtrip (v : JSValue) (now : Nat) :
    decodeCookieValue (encodeCookieValue v [] false now) [] false = Except.ok v := rfl

/-- Claim C8: for every value, mode and wall-clock time, `encodeCookieValue`
on a non-empty secret list depends only on the head of the list: two lists
with the same head and arbitrary different tails produce the identical
token. -/
theorem encodeCookieValue_depends_only_on_head (v : JSValue) (s0 : String)
    (rest1 rest2 : List String) (encrypt : Bool) (now : Nat) :
    encodeCookieValue v (s0 :: rest1) encrypt now
      = encodeCookieValue v (s0 :: rest2) encrypt now := rfl

end RemixCookies

namespace RemixCookies

/-- Claim C2: `decodeCookieValue` fails with a `DecodingError` only when the
token is not valid compact-token framing at all; and every structurally
parseable token all of whose per-secret attempts fail (in particular when the
secret list is empty) is decoded as an unsecured token, its payload returned
rather than an error. -/
theorem decodeCookieValue_error_only_malformed :
    (∀ (value : Token) (secrets : List String) (decrypt : Bool) (e : DecodingError),
      decodeCookieValue value secrets decrypt = Except.error e →
        ∃ raw, value = Token.malformed raw) ∧
    (∀ (value : Token) (secrets : List String) (decrypt : Bool) (p : JSValue),
      Token.payloadOf value = some p →
      (∀ s ∈ secrets, attemptSecret value s decrypt = none) →
        decodeCookieValue value secrets decrypt = Except.ok p) := by
  constructor
  · intro value secrets decrypt e h
    have hu := unsecuredDecode_error_of_decode_error value secrets decrypt e h
    cases value with
    | malformed raw => exact ⟨raw, rfl⟩
    | signed p i s => cases hu
    | encrypted p i s => cases hu
    | unsecured p i => cases hu
  · intro value secrets decrypt p hp hfail
    have htry := tryEachSecret_eq_none_of_all_fail value decrypt secrets hfail
    have hu : jose.UnsecuredJWT.decode value = Except.ok p := by
      cases value with
      | malformed raw => cases hp
      | signed q i s => cases hp; rfl
      | encrypted q i s => cases hp; rfl
      | unsecured q i => cases hp; rfl
    by_cases hl : 0 < secrets.length
    · rw [decodeCookieValue, if_pos hl, htry]; exact hu
    · rw [decodeCookieValue, if_neg hl]; exact hu

/-- Witness for C2 at concrete inputs: the malformed token string errors (so
the existential is inhabited), and a signed token that fails the one
configured secret still decodes to its payload. -/
theorem decodeCookieValue_error_only_malformed_witness :
    (∃ raw, Token.malformed "zzz" = Token.malformed raw) ∧
    decodeCookieValue (Token.signed (JSValue.num 2) 0 "K") ["X"] false
      = Except.ok (JSValue.num 2) :=
  ⟨decodeCookieValue_error_only_malformed.1 (Token.malformed "zzz") [] false
      (DecodingError.invalidFraming "zzz") (by rfl),
   decodeCookieValue_error_only_malformed.2 (Token.signed (JSValue.num 2) 0 "K")
      ["X"] false (JSValue.num 2) (by rfl) (by decide)⟩

/-- Claim C3: `decodeCookieValue` attempts the secrets strictly in list order:
a successful head secret returns its payload immediately and the tail is never
consulted (the result is independent of the tail); a failed head secret is
silently skipped (the result equals decoding with the tail alone); and
consequently a token signed with `[old]` still decodes to its payload under
the rotated list `[new, old]`. -/
theorem decodeCookieValue_first_match_rotation :
    (∀ (value : Token) (s0 : String) (rest : List String) (decrypt : Bool)
        (v : JSValue), attemptSecret value s0 decrypt = some v →
      decodeCookieValue value (s0 :: rest) decrypt = Except.ok v) ∧
    (∀ (value : Token) (s0 : String) (rest : List String) (decrypt : Bool),
      attemptSecret value s0 decrypt = none →
      decodeCookieValue value (s0 :: rest) decrypt
        = decodeCookieValue value rest decrypt) ∧
    (∀ (v : JSValue) (oldSecret newSecret : String) (now : Nat),
      decodeCookieValue (encodeCookieValue v [oldSecret] false now)
        [newSecret, oldSecret] false = Except.ok v) := by
  refine ⟨?first, ?skip, ?rotation⟩
  case first =>
    intro value s0 rest decrypt v h
    simp [decodeCookieValue, tryEachSecret, h]
  case skip =>
    intro value s0 rest decrypt h
    cases rest with
    | nil => simp [decodeCookieValue, tryEachSecret, h]
    | cons s1 rest1 =>
      rw [decodeCookieValue, decodeCookieValue]
      simp only [List.length_cons, Nat.zero_lt_succ, if_pos]
      rw [tryEachSecret, h]
  case rotation =>
    intro v oldSecret newSecret now
    by_cases h : oldSecret = newSecret <;>
      simp [encodeCookieValue, decodeCookieValue, tryEachSecret, attemptSecret,
        jose.jwtVerify, jose.SignJWT.sign, h]

/-- Witness for C3 at concrete inputs: a token signed with secret B decodes
under [B] directly by the first match, skipping the failing secret A makes
[A, B] behave like [B], and the rotation property holds for ["new"], ["old"]
with a concrete payload. -/
theorem decodeCookieValue_first_match_rotation_witness :
    decodeCookieValue (Token.signed (JSValue.num 1) 0 "B") ["B"] false
      = Except.ok (JSValue.num 1) ∧
    decodeCookieValue (Token.signed (JSValue.num 1) 0 "B") ["A", "B"] false
      = decodeCookieValue (Token.signed (JSValue.num 1) 0 "B") ["B"] false ∧
    decodeCookieValue (encodeCookieValue (JSValue.num 7) ["old"] false 5)
      ["new", "old"] false = Except.ok (JSValue.num 7) :=
  ⟨decodeCookieValue_first_match_rotation.1 (Token.signed (JSValue.num 1) 0 "B")
      "B" [] false (JSValue.num 1) (by decide),
   decodeCookieValue_first_match_rotation.2.1 (Token.signed (JSValue.num 1) 0 "B")
      "A" ["B"] false (by decide),
   decodeCookieValue_first_match_rotation.2.2 (JSValue.num 7) "old" "new" 5⟩

end RemixCookies

namespace RemixCookies

/-- Claim C5: for every descriptor (hence every secret list and mode),
serializing the empty-string value yields the empty raw value, and the token
encoder is never invoked (any two encoders give the same result); and in
`parse`, when the raw value mapped to the cookie name is the empty string the
empty string is returned directly, the token decoder never invoked (any two
decoders give the same result). -/
theorem empty_value_short_circuit :
    (∀ (c : CookieDescriptor) (now : Nat),
      (CookieDescriptor.serialize c now (JSValue.str "")).rawValue
        = RawValue.emptyStr) ∧
    (∀ (enc1 enc2 : JSValue → Token) (name : String),
      serializeWith enc1 name (JSValue.str "")
        = serializeWith enc2 name (JSValue.str "")) ∧
    (∀ (dec : Token → Except DecodingError JSValue) (name : String)
        (cookies : List (String × RawValue)),
      cookies.lookup name = some RawValue.emptyStr →
        parseWith dec name cookies = Except.ok (some (JSValue.str ""))) ∧
    (∀ (dec1 dec2 : Token → Except DecodingError JSValue) (name : String)
        (cookies : List (String × RawValue)),
      cookies.lookup name = some RawValue.emptyStr →
        parseWith dec1 name cookies = parseWith dec2 name cookies) := by
  refine ⟨?ser, ?serInd, ?par, ?parInd⟩
  case ser => intro c now; rfl
  case serInd => intro enc1 enc2 name; rfl
  case par => intro dec name cookies h; rw [parseWith, h]
  case parInd => intro dec1 dec2 name cookies h; rw [parseWith, h, parseWith, h]

/-- Witness for C5 at concrete inputs: a descriptor with one secret in sign
mode serializes the empty string to the empty raw value, and a mapping binding
the cookie name to the empty raw value parses to the empty-string sentinel,
for the descriptor's own decoder. -/
theorem empty_value_short_circuit_witness :
    (CookieDescriptor.serialize (createCookie "session" { secrets := ["s1"] }) 0
      (JSValue.str "")).rawValue = RawValue.emptyStr ∧
    parseWith (fun t => decodeCookieValue t ["s1"] false) "session"
      [("session", RawValue.emptyStr)] = Except.ok (some (JSValue.str "")) :=
  ⟨empty_value_short_circuit.1 (createCookie "session" { secrets := ["s1"] }) 0,
   empty_value_short_circuit.2.2.1 (fun t => decodeCookieValue t ["s1"] false)
     "session" [("session", RawValue.emptyStr)] (by decide)⟩

/-- Claim C6: `parse` returns `null` (absent, not an error) when the cookie
header is absent, and also when the descriptor's name is not a key of the
mapping the external header parser produces. -/
theorem parse_absent_returns_null :
    (∀ (c : CookieDescriptor) (parseHeader : String → List (String × RawValue)),
      CookieDescriptor.parse c parseHeader none = Except.ok none) ∧
    (∀ (c : CookieDescriptor) (parseHeader : String → List (String × RawValue))
        (h : String), (parseHeader h).lookup c.name = none →
      CookieDescriptor.parse c parseHeader (some h) = Except.ok none) := by
  constructor
  · intro c parseHeader; rfl
  · intro c parseHeader h hlook
    rw [CookieDescriptor.parse]
    by_cases he : h = ""
    · rw [if_pos he]
    · rw [if_neg he, parseWith, hlook]

/-- Witness for C6 at concrete inputs: a descriptor named "session" parses the
absent header to null, and a header whose parsed mapping contains no
"session" key also parses to null. -/
theorem parse_absent_returns_null_witness :
    CookieDescriptor.parse (createCookie "session" {})
      (fun _ => [("other", RawValue.emptyStr)]) none = Except.ok none ∧
    CookieDescriptor.parse (createCookie "session" {})
      (fun _ => [("other", RawValue.emptyStr)]) (some "other=") = Except.ok none :=
  ⟨parse_absent_returns_null.1 (createCookie "session" {})
      (fun _ => [("other", RawValue.emptyStr)]),
   parse_absent_returns_null.2 (createCookie "session" {})
      (fun _ => [("other", RawValue.emptyStr)]) "other=" (by decide)⟩

/-- Claim C7: when a numeric `maxAge` is configured, each access of `expires`
returns the access-time clock plus `maxAge` seconds (`maxAge * 1000`
milliseconds), so accesses at different wall-clock times yield different
dates, and `maxAge` takes precedence over any configured static `expires`;
when no `maxAge` is configured, every access returns the statically
configured `expires` (or none) unchanged, independent of the clock. -/
theorem expires_derivation :
    (∀ (c : CookieDescriptor) (m : Int) (now : Int), c.options.maxAge = some m →
      CookieDescriptor.expires c now = some (now + m * 1000)) ∧
    (∀ (c : CookieDescriptor) (m : Int) (now1 now2 : Int),
      c.options.maxAge = some m → now1 ≠ now2 →
      CookieDescriptor.expires c now1 ≠ CookieDescriptor.expires c now2) ∧
    (∀ (c : CookieDescriptor) (now : Int), c.options.maxAge = none →
      CookieDescriptor.expires c now = c.options.expires) := by
  refine ⟨?withMax, ?fresh, ?static⟩
  case withMax => intro c m now h; rw [CookieDescriptor.expires, h]
  case fresh =>
    intro c m now1 now2 h hne
    rw [CookieDescriptor.expires, h, CookieDescriptor.expires, h]
    intro heq
    have h2 : now1 + m * 1000 = now2 + m * 1000 := Option.some.inj heq
    exact hne (by omega)
  case static => intro c now h; rw [CookieDescriptor.expires, h]
  
/-- Witness for C7 at concrete inputs: with `maxAge = 3600` and a static
`expires` of 5, reading `expires` at time 0 gives 3600000 (maxAge wins over
the static date), readings at times 0 and 1000 differ, and with no `maxAge`
the static date 5 is returned at any time. -/
theorem expires_derivation_witness :
    CookieDescriptor.expires
      (createCookie "session" { maxAge := some 3600, expires := some 5 }) 0
      = some 3600000 ∧
    CookieDescriptor.expires
      (createCookie "session" { maxAge := some 3600, expires := some 5 }) 0
      ≠ CookieDescriptor.expires
        (createCookie "session" { maxAge := some 3600, expires := some 5 }) 1000 ∧
    CookieDescriptor.expires (createCookie "session" { expires := some 5 }) 123
      = some 5 :=
  ⟨expires_derivation.1
      (createCookie "session" { maxAge := some 3600, expires := some 5 }) 3600 0 rfl,
   expires_derivation.2.1
      (createCookie "session" { maxAge := some 3600, expires := some 5 }) 3600 0 1000
      rfl (by decide),
   expires_derivation.2.2 (createCookie "session" { expires := some 5 }) 123 rfl⟩

/-- Claim C9 (amended): the `name` property of a descriptor built by
`createCookieFactory()(name, options)` returns the construction-time name
unchanged on every access; it is the empty string exactly when the
construction-time name was empty — no non-emptiness is enforced. -/
theorem createCookie_name_immutable (name : String) (opts : CookieOptions) :
    (createCookieFactory () name opts).name = name ∧
    ((createCookieFactory () name opts).name = "" ↔ name = "") :=
  ⟨rfl, Iff.rfl⟩

/-- Counterexample to C9 as stated: `createCookieFactory()("", \x7b\x7d)`
produces a descriptor whose `name` property is the empty string, refuting
"never the empty string". -/
theorem createCookie_name_can_be_empty :
    (createCookieFactory () "" {}).name = "" := rfl

/-- Claim C10: every cookie object built by `createCookieFactory()(name,
options)` satisfies the `isCookie` runtime type guard: its `name` is a string,
`isSigned` a boolean, and `parse` and `serialize` functions. -/
theorem isCookie_of_createCookie (name : String) (opts : CookieOptions) :
    isCookie (some ((createCookieFactory () name opts).toJSObject)) = true := rfl

end RemixCookies
